import Mathlib

/-!
Shallow embedding of the practice-record web application (src/app.py).

The application stores Practice records (table "pratiche") and exposes four
lifecycle operations: list by status (api_pratiche), create (pratica_nuova),
update (pratica_modifica) and delete (pratica_elimina).  The embedding keeps
the Italian field and status names of the source: stato NUOVA/ATTIVA/CHIUSA
correspond to the specification names NEW/ACTIVE/CLOSED, cliente/oggetto/
note/data_apertura/data_chiusura to client/subject/notes/opened_on/closed_on.

Dates (datetime.date) and timestamps (datetime.datetime) are modelled as Nat;
their isoformat rendering is modelled by an injective stand-in function, since
only which fields are rendered, and whether they are null, matter to the
claims.  HTTP form and query parameters are Option String (absent = none).
The database table is a List Practice.  A handler run that ends in a
validation error or a 404 is modelled as Option.none at the record level and
as an unchanged table at the store level, mirroring the fact that the Flask
handlers re-render the form without committing anything in those cases.
-/

namespace DatabaseApp

/-- JSON values, as produced by the listing endpoint via jsonify. -/
inductive Json where
  | null : Json
  | str : String → Json
  | num : Nat → Json
deriving DecidableEq, Repr

/-- The Practice model (class Practice, src/app.py lines 59-89).  Columns that
are nullable in the schema (data_chiusura, note, updated_by, created_by) are
Option; the rest are plain values. -/
structure Practice where
  id : Nat
  cliente : String
  oggetto : String
  stato : String
  data_apertura : Nat
  data_chiusura : Option Nat
  note : Option String
  updated_at : Nat
  updated_by : Option String
  created_at : Nat
  created_by : Option String
deriving DecidableEq, Repr

/-- Python truthiness fallback on an optional string, as in
(request.form.get("cliente") or ""): None and the empty string both fall
back to the default. -/
def pyOr (o : Option String) (d : String) : String :=
  match o with
  | none => d
  | some s => if s = "" then d else s

/-- ASCII case mapping of a single character, the relevant fragment of the
Python str.upper builtin. -/
def pyUpperChar (c : Char) : Char :=
  if 97 ≤ c.toNat ∧ c.toNat ≤ 122 then Char.ofNat (c.toNat - 32) else c

/-- Model of the Python str.upper builtin (ASCII fragment). -/
def pyUpper (s : String) : String :=
  String.mk (s.data.map pyUpperChar)

/-- Model of the Python str.strip builtin: drop leading and trailing
whitespace. -/
def pyStrip (s : String) : String :=
  String.mk
    (((s.data.dropWhile Char.isWhitespace).reverse.dropWhile
        Char.isWhitespace).reverse)

/-- Membership test stato in ("NUOVA", "ATTIVA", "CHIUSA") used by every
handler that normalizes a status. -/
def statoValido (s : String) : Bool :=
  s == "NUOVA" || s == "ATTIVA" || s == "CHIUSA"

/-- Stand-in for date.isoformat / datetime.isoformat on the Nat model of
dates and timestamps. -/
def isoformat (n : Nat) : String :=
  toString n

/-- Form fields of the create/edit form (cliente, oggetto, stato, note);
request.form.get returns none when a field is absent. -/
structure FormInput where
  cliente : Option String
  oggetto : Option String
  stato : Option String
  note : Option String
deriving DecidableEq, Repr

/-- Practice.to_dict (src/app.py lines 78-89): serialization used by the JSON
listing.  data_apertura, created-so-far non-null, is rendered as an ISO date;
data_chiusura as an ISO date or null; note and updated_by fall back to the
empty string via Python `or`. -/
def Practice.to_dict (p : Practice) : List (String × Json) :=
  [("id", Json.num p.id),
   ("cliente", Json.str p.cliente),
   ("oggetto", Json.str p.oggetto),
   ("stato", Json.str p.stato),
   ("data_apertura", Json.str (isoformat p.data_apertura)),
   ("data_chiusura",
     match p.data_chiusura with
     | some d => Json.str (isoformat d)
     | none => Json.null),
   ("note", Json.str (pyOr p.note "")),
   ("updated_at", Json.str (isoformat p.updated_at)),
   ("updated_by", Json.str (pyOr p.updated_by ""))]

/-- Status resolution of the create handler (src/app.py lines 200-204):
uppercase (form value or "NUOVA"), then fall back to "NUOVA" when invalid. -/
def resolvedStatoNuova (inp : Option String) : String :=
  let stato := pyUpper (pyOr inp "NUOVA")
  if statoValido stato then stato else "NUOVA"

/-- Status resolution of the edit handler (src/app.py lines 237-241):
uppercase (form value or the previous status), then fall back to the
previous status when invalid. -/
def resolvedStatoModifica (prev : String) (inp : Option String) : String :=
  let stato := pyUpper (pyOr inp prev)
  if statoValido stato then stato else prev

/-- POST branch of pratica_nuova (src/app.py lines 197-221).  Trims cliente,
oggetto and note, resolves the status, and fails (none) when the trimmed
cliente or oggetto is empty.  On success it builds the new row exactly as the
Practice(...) constructor call does: data_apertura = today, data_chiusura
left at its column default (absent), created_by = updated_by = the current
user, created_at (column default) = updated_at = now, id = the assigned key. -/
def pratica_nuova (form : FormInput) (username : String)
    (today now nextId : Nat) : Option Practice :=
  let cliente := pyStrip (pyOr form.cliente "")
  let oggetto := pyStrip (pyOr form.oggetto "")
  let stato := resolvedStatoNuova form.stato
  let note := pyStrip (pyOr form.note "")
  if cliente = "" ∨ oggetto = "" then
    none
  else
    some { id := nextId
           cliente := cliente
           oggetto := oggetto
           stato := stato
           data_apertura := today
           data_chiusura := none
           note := some note
           updated_at := now
           updated_by := some username
           created_at := now
           created_by := some username }

/-- POST branch of pratica_modifica on a fetched row (src/app.py lines
234-261).  Trims and resolves inputs, fails (none) when the trimmed cliente or
oggetto is empty (the row is then untouched), otherwise overwrites cliente,
oggetto, stato and note, applies the closure-date rules of lines 252-256
(stamp today when the status becomes CHIUSA and no closure date is present;
clear it whenever the status is not CHIUSA), and stamps updated_at/updated_by. -/
def pratica_modifica (p : Practice) (form : FormInput) (username : String)
    (today now : Nat) : Option Practice :=
  let cliente := pyStrip (pyOr form.cliente "")
  let oggetto := pyStrip (pyOr form.oggetto "")
  let stato := resolvedStatoModifica p.stato form.stato
  let note := pyStrip (pyOr form.note "")
  if cliente = "" ∨ oggetto = "" then
    none
  else
    let chiusura1 :=
      if stato = "CHIUSA" ∧ p.data_chiusura = none then some today
      else p.data_chiusura
    let chiusura2 := if stato ≠ "CHIUSA" then none else chiusura1
    some { p with
           cliente := cliente
           oggetto := oggetto
           stato := stato
           note := some note
           data_chiusura := chiusura2
           updated_at := now
           updated_by := some username }

/-- Status resolution of the listing endpoints (src/app.py lines 183-185):
request.args.get("stato", "ATTIVA") keeps an empty present value, uppercases,
and falls back to "ATTIVA" when the result is invalid. -/
def resolvedStatoQuery (q : Option String) : String :=
  let stato := pyUpper (q.getD "ATTIVA")
  if statoValido stato then stato else "ATTIVA"

/-- Ordering used by api_pratiche: updated_at descending. -/
def byUpdatedAtDesc (a b : Practice) : Prop :=
  b.updated_at ≤ a.updated_at

instance : DecidableRel byUpdatedAtDesc :=
  fun a b => inferInstanceAs (Decidable (b.updated_at ≤ a.updated_at))

instance : IsTotal Practice byUpdatedAtDesc :=
  ⟨fun a b => Nat.le_total b.updated_at a.updated_at⟩

instance : IsTrans Practice byUpdatedAtDesc :=
  ⟨fun _ _ _ h1 h2 => Nat.le_trans h2 h1⟩

/-- api_pratiche (src/app.py lines 182-191): filter the table to the resolved
status and order by updated_at descending (the ORDER BY is modelled as a
sort by the descending-updated_at relation). -/
def api_pratiche (db : List Practice) (q : Option String) : List Practice :=
  List.insertionSort byUpdatedAtDesc
    (db.filter (fun p => p.stato = resolvedStatoQuery q))

/-- Store-level create: db.session.add + commit appends the new row; a
validation error leaves the table unchanged. -/
def store_nuova (db : List Practice) (form : FormInput) (username : String)
    (today now nextId : Nat) : List Practice :=
  match pratica_nuova form username today now nextId with
  | some p => db ++ [p]
  | none => db

/-- Store-level update: the row with the given id is replaced by the result
of pratica_modifica; a validation error (or an id that matches no row, the
404 case) leaves the table unchanged. -/
def store_modifica (db : List Practice) (pid : Nat) (form : FormInput)
    (username : String) (today now : Nat) : List Practice :=
  db.map (fun p =>
    if p.id = pid then (pratica_modifica p form username today now).getD p
    else p)

/-- pratica_elimina (src/app.py lines 270-276): get_or_404 then delete.  When
a row with the id exists it is removed; otherwise (the 404 case) the table is
unchanged. -/
def pratica_elimina (db : List Practice) (pid : Nat) : List Practice :=
  if db.any (fun p => p.id = pid) then db.filter (fun p => ¬ p.id = pid)
  else db

/-- Record states reachable through successful create and update operations. -/
inductive Reachable : Practice → Prop where
  | create (form : FormInput) (username : String) (today now nextId : Nat)
      (p : Practice) :
      pratica_nuova form username today now nextId = some p → Reachable p
  | update (p : Practice) (form : FormInput) (username : String)
      (today now : Nat) (q : Practice) :
      Reachable p → pratica_modifica p form username today now = some q →
      Reachable q

/-! Concrete sample records used by witnesses and counterexamples. -/

/-- Record produced by a create with cliente "Acme", oggetto "Contract
review", status input "CHIUSA", on day 5 at time 10, by user "admin". -/
def praticaAcmeChiusa : Practice :=
  { id := 1, cliente := "Acme", oggetto := "Contract review",
    stato := "CHIUSA", data_apertura := 5, data_chiusura := none,
    note := some "", updated_at := 10, updated_by := some "admin",
    created_at := 10, created_by := some "admin" }

/-- Record produced by updating praticaAcmeChiusa with status input
"CHIUSA" on day 7 at time 12. -/
def praticaChiusaAggiornata : Practice :=
  { id := 1, cliente := "Acme", oggetto := "Contract review",
    stato := "CHIUSA", data_apertura := 5, data_chiusura := some 7,
    note := some "", updated_at := 12, updated_by := some "admin",
    created_at := 10, created_by := some "admin" }

/-- Record produced by a create with status input "bogus" on day 7 at time
12: the status falls back to NUOVA. -/
def praticaAcmeNuova : Practice :=
  { id := 1, cliente := "Acme", oggetto := "Contract review",
    stato := "NUOVA", data_apertura := 7, data_chiusura := none,
    note := some "", updated_at := 12, updated_by := some "admin",
    created_at := 12, created_by := some "admin" }

/-- praticaChiusaAggiornata after a further CHIUSA update at time 13. -/
def praticaChiusa13 : Practice :=
  { praticaChiusaAggiornata with updated_at := 13 }

/-- praticaChiusa13 after a further CHIUSA update at time 14. -/
def praticaChiusa14 : Practice :=
  { praticaChiusaAggiornata with updated_at := 14 }

/-- praticaChiusaAggiornata after an ATTIVA update at time 13: reopening
clears the closure date. -/
def praticaAttiva13 : Practice :=
  { praticaChiusaAggiornata with
      stato := "ATTIVA", data_chiusura := none, updated_at := 13 }

/-- praticaChiusa13 after an ATTIVA update at time 14. -/
def praticaAttiva14 : Practice :=
  { praticaChiusaAggiornata with
      stato := "ATTIVA", data_chiusura := none, updated_at := 14 }

/-- praticaAttiva14 after a CHIUSA update on day 11 at time 15: the second
closing stamps day 11. -/
def praticaChiusa15 : Practice :=
  { praticaChiusaAggiornata with data_chiusura := some 11, updated_at := 15 }

/-- A second stored record, with a different id, used by the delete witness. -/
def praticaAltra : Practice :=
  { praticaAcmeChiusa with id := 2, updated_at := 20 }

/-! Inversion lemmas characterizing a successful create and a successful
update. -/

/-- Inversion for a successful create: the produced row, field by field. -/
theorem pratica_nuova_inv {form : FormInput} {username : String}
    {today now nextId : Nat} {p : Practice}
    (h : pratica_nuova form username today now nextId = some p) :
    p = { id := nextId
          cliente := pyStrip (pyOr form.cliente "")
          oggetto := pyStrip (pyOr form.oggetto "")
          stato := resolvedStatoNuova form.stato
          data_apertura := today
          data_chiusura := none
          note := some (pyStrip (pyOr form.note ""))
          updated_at := now
          updated_by := some username
          created_at := now
          created_by := some username } := by
  simp only [pratica_nuova] at h
  split at h
  · exact Option.noConfusion h
  · exact (Option.some.inj h).symm

/-- Inversion for a successful update: the produced row, field by field. -/
theorem pratica_modifica_inv {p : Practice} {form : FormInput}
    {username : String} {today now : Nat} {q : Practice}
    (h : pratica_modifica p form username today now = some q) :
    q = { p with
          cliente := pyStrip (pyOr form.cliente "")
          oggetto := pyStrip (pyOr form.oggetto "")
          stato := resolvedStatoModifica p.stato form.stato
          note := some (pyStrip (pyOr form.note ""))
          data_chiusura :=
            if resolvedStatoModifica p.stato form.stato ≠ "CHIUSA" then none
            else if resolvedStatoModifica p.stato form.stato = "CHIUSA" ∧
                p.data_chiusura = none then some today
            else p.data_chiusura
          updated_at := now
          updated_by := some username } := by
  simp only [pratica_modifica] at h
  split at h
  · exact Option.noConfusion h
  · exact (Option.some.inj h).symm

/-- Closure-date equation of a successful update. -/
theorem modifica_data_chiusura {p : Practice} {form : FormInput}
    {username : String} {today now : Nat} {q : Practice}
    (h : pratica_modifica p form username today now = some q) :
    q.data_chiusura =
      if resolvedStatoModifica p.stato form.stato = "CHIUSA" then
        (if p.data_chiusura = none then some today else p.data_chiusura)
      else none := by
  rw [pratica_modifica_inv h]
  by_cases hs : resolvedStatoModifica p.stato form.stato = "CHIUSA" <;>
    simp [hs]

/-- Status equation of a successful update. -/
theorem modifica_stato {p : Practice} {form : FormInput}
    {username : String} {today now : Nat} {q : Practice}
    (h : pratica_modifica p form username today now = some q) :
    q.stato = resolvedStatoModifica p.stato form.stato := by
  rw [pratica_modifica_inv h]

/-- C1 counterexample: the create handler never stamps data_chiusura, so a
create whose resolved status is CHIUSA produces a record with data_chiusura
absent rather than equal to today, refuting the claim at the concrete input
cliente "Acme", oggetto "Contract review", stato "CHIUSA". -/
theorem create_stamps_closed_on_cex :
    ¬ (∀ (form : FormInput) (username : String) (today now nextId : Nat)
        (p : Practice),
        pratica_nuova form username today now nextId = some p →
        p.stato = "CHIUSA" → p.data_chiusura = some today) := by
  intro hclaim
  have h := hclaim ⟨some "Acme", some "Contract review", some "CHIUSA", none⟩
      "admin" 5 10 1 praticaAcmeChiusa (by decide) (by decide)
  exact absurd h (by decide)

/-- C1 (amended): every Create call that succeeds produces a record with
closed_on absent, whatever the resolved status is: for resolved status NUOVA
or ATTIVA this is what the claim states, and for resolved status CHIUSA the
closure date is, contrary to the claim, also absent. -/
theorem create_closed_on_always_absent (form : FormInput) (username : String)
    (today now nextId : Nat) (p : Practice)
    (h : pratica_nuova form username today now nextId = some p) :
    p.data_chiusura = none := by
  rw [pratica_nuova_inv h]

/-- Witness for C1 (amended) at the concrete create of praticaAcmeChiusa. -/
theorem create_closed_on_always_absent_witness :
    praticaAcmeChiusa.data_chiusura = none :=
  create_closed_on_always_absent
    ⟨some "Acme", some "Contract review", some "CHIUSA", none⟩
    "admin" 5 10 1 praticaAcmeChiusa (by decide)

/-- C2 counterexample: the record created with status input "CHIUSA" is
reachable, has stato CHIUSA, and yet has data_chiusura absent, so the
closed_on-iff-CLOSED invariant fails on a reachable state. -/
theorem closure_invariant_cex :
    ¬ (∀ p : Practice, Reachable p →
        (p.data_chiusura ≠ none ↔ p.stato = "CHIUSA")) := by
  intro hclaim
  have hr : Reachable praticaAcmeChiusa :=
    Reachable.create ⟨some "Acme", some "Contract review", some "CHIUSA", none⟩
      "admin" 5 10 1 praticaAcmeChiusa (by decide)
  exact (hclaim praticaAcmeChiusa hr).mpr rfl rfl

/-- C2 (amended): in every reachable record state, closed_on non-null implies
status CHIUSA, and every successful Update establishes the full equivalence
closed_on non-null iff status CHIUSA; creation however does not preserve the
equivalence: a record created with resolved status CHIUSA has closed_on
absent. -/
theorem closure_invariant_amended :
    (∀ p : Practice, Reachable p →
      p.data_chiusura ≠ none → p.stato = "CHIUSA") ∧
    (∀ (p : Practice) (form : FormInput) (username : String) (today now : Nat)
        (q : Practice), pratica_modifica p form username today now = some q →
      (q.data_chiusura ≠ none ↔ q.stato = "CHIUSA")) := by
  constructor
  · intro p hp
    induction hp with
    | create form username today now nextId p h =>
        rw [pratica_nuova_inv h]
        intro hc
        exact absurd rfl hc
    | update p form username today now q _ h _ =>
        intro hc
        have hdc := modifica_data_chiusura h
        have hst := modifica_stato h
        by_cases hs : resolvedStatoModifica p.stato form.stato = "CHIUSA"
        · rw [hst]; exact hs
        · rw [hdc, if_neg hs] at hc
          exact absurd rfl hc
  · intro p form username today now q h
    have hdc := modifica_data_chiusura h
    have hst := modifica_stato h
    by_cases hs : resolvedStatoModifica p.stato form.stato = "CHIUSA"
    · rw [hdc, if_pos hs, hst]
      constructor
      · intro _; exact hs
      · intro _
        by_cases hd : p.data_chiusura = none
        · rw [if_pos hd]; exact Option.some_ne_none today
        · rw [if_neg hd]; exact hd
    · rw [hdc, if_neg hs, hst]
      constructor
      · intro hfalse; exact absurd rfl hfalse
      · intro hq; exact absurd hq hs

/-- Witness for C2 (amended) at a concrete reachable state: the record
obtained by creating praticaAcmeChiusa and then updating it with status
input "CHIUSA" has a closure date, and the theorem yields stato CHIUSA. -/
theorem closure_invariant_amended_witness :
    praticaChiusaAggiornata.stato = "CHIUSA" :=
  closure_invariant_amended.1 praticaChiusaAggiornata
    (Reachable.update praticaAcmeChiusa
      ⟨some "Acme", some "Contract review", some "CHIUSA", none⟩
      "admin" 7 12 praticaChiusaAggiornata
      (Reachable.create
        ⟨some "Acme", some "Contract review", some "CHIUSA", none⟩
        "admin" 5 10 1 praticaAcmeChiusa (by decide))
      (by decide))
    (by decide)

/-- C3: a Create or Update call whose trimmed cliente or trimmed oggetto is
empty fails with a validation error: no record is produced, the store gains
no row on create, and on update every stored row (in particular the targeted
one) is left unmodified. -/
theorem validation_blocks_all_changes (form : FormInput) (username : String)
    (today now nextId pid : Nat) (p0 : Practice) (db : List Practice)
    (h : pyStrip (pyOr form.cliente "") = "" ∨
         pyStrip (pyOr form.oggetto "") = "") :
    pratica_nuova form username today now nextId = none ∧
    pratica_modifica p0 form username today now = none ∧
    store_nuova db form username today now nextId = db ∧
    store_modifica db pid form username today now = db := by
  have hn : pratica_nuova form username today now nextId = none := by
    simp only [pratica_nuova]
    rw [if_pos h]
  have hm : ∀ p : Practice,
      pratica_modifica p form username today now = none := by
    intro p
    simp only [pratica_modifica]
    rw [if_pos h]
  refine ⟨hn, hm p0, ?_, ?_⟩
  · simp only [store_nuova, hn]
  · simp only [store_modifica]
    have h2 : (fun p : Practice =>
        if p.id = pid then (pratica_modifica p form username today now).getD p
        else p) = fun p => p := by
      funext p
      rw [hm p]
      simp
    rw [h2]
    exact List.map_id db

/-- Witness for C3 at a whitespace-only cliente input. -/
theorem validation_blocks_all_changes_witness :
    pratica_nuova ⟨some "   ", some "Contract review", none, none⟩
      "admin" 5 10 1 = none :=
  (validation_blocks_all_changes
    ⟨some "   ", some "Contract review", none, none⟩
    "admin" 5 10 1 0 praticaAcmeChiusa [] (Or.inl (by decide))).1

/-! Helper lemmas on status resolution. -/

/-- A valid status is one of the three literals. -/
theorem statoValido_cases {s : String} (h : statoValido s = true) :
    s = "NUOVA" ∨ s = "ATTIVA" ∨ s = "CHIUSA" := by
  simp only [statoValido, Bool.or_eq_true, beq_iff_eq] at h
  tauto

/-- Valid statuses are uppercase fixed points. -/
theorem pyUpper_of_statoValido {s : String} (h : statoValido s = true) :
    pyUpper s = s := by
  rcases statoValido_cases h with h | h | h <;> subst h <;> decide

/-- A create always resolves to a valid status. -/
theorem resolvedStatoNuova_valid (inp : Option String) :
    statoValido (resolvedStatoNuova inp) = true := by
  simp only [resolvedStatoNuova]
  split
  · assumption
  · decide

/-- A create with an invalid normalized status input falls back to NUOVA. -/
theorem resolvedStatoNuova_fallback {inp : Option String}
    (h : statoValido (pyUpper (pyOr inp "NUOVA")) = false) :
    resolvedStatoNuova inp = "NUOVA" := by
  simp only [resolvedStatoNuova]
  rw [h]
  simp

/-- An update of a record with a valid status resolves to a valid status. -/
theorem resolvedStatoModifica_valid {prev : String}
    (h : statoValido prev = true) (inp : Option String) :
    statoValido (resolvedStatoModifica prev inp) = true := by
  simp only [resolvedStatoModifica]
  split
  · assumption
  · exact h

/-- An update with an invalid normalized status input falls back to the
previous status. -/
theorem resolvedStatoModifica_fallback {prev : String} {inp : Option String}
    (h : statoValido (pyUpper (pyOr inp prev)) = false) :
    resolvedStatoModifica prev inp = prev := by
  simp only [resolvedStatoModifica]
  rw [h]
  simp

/-- An update with an absent status input resolves to the previous (valid)
status. -/
theorem resolvedStatoModifica_none {prev : String}
    (h : statoValido prev = true) :
    resolvedStatoModifica prev none = prev := by
  simp only [resolvedStatoModifica, pyOr]
  rw [pyUpper_of_statoValido h, if_pos h]

/-- C4: both handlers store only the three valid statuses after uppercase
normalization; on an invalid normalized input (and on an absent input on
create) the create handler falls back to NUOVA, while the edit handler falls
back to the previous status of the record (also on an absent input). -/
theorem status_normalization (form : FormInput) (username : String)
    (today now nextId : Nat) (p0 p q : Practice)
    (hvalid : statoValido p0.stato = true)
    (hn : pratica_nuova form username today now nextId = some p)
    (hm : pratica_modifica p0 form username today now = some q) :
    statoValido p.stato = true ∧
    (statoValido (pyUpper (pyOr form.stato "NUOVA")) = false →
      p.stato = "NUOVA") ∧
    (form.stato = none → p.stato = "NUOVA") ∧
    statoValido q.stato = true ∧
    (statoValido (pyUpper (pyOr form.stato p0.stato)) = false →
      q.stato = p0.stato) ∧
    (form.stato = none → q.stato = p0.stato) := by
  have hps : p.stato = resolvedStatoNuova form.stato := by
    rw [pratica_nuova_inv hn]
  have hqs : q.stato = resolvedStatoModifica p0.stato form.stato :=
    modifica_stato hm
  refine ⟨?_, ?_, ?_, ?_, ?_, ?_⟩
  · rw [hps]; exact resolvedStatoNuova_valid form.stato
  · intro hinv; rw [hps]; exact resolvedStatoNuova_fallback hinv
  · intro habs; rw [hps, habs]; decide
  · rw [hqs]; exact resolvedStatoModifica_valid hvalid form.stato
  · intro hinv; rw [hqs]; exact resolvedStatoModifica_fallback hinv
  · intro habs; rw [hqs, habs]; exact resolvedStatoModifica_none hvalid

/-- Witness for C4: creating with status input "bogus" gives a NUOVA record,
updating a CHIUSA record with status input "bogus" keeps it CHIUSA. -/
theorem status_normalization_witness :
    praticaAcmeNuova.stato = "NUOVA" ∧
    praticaChiusaAggiornata.stato = "CHIUSA" := by
  have h := status_normalization
    ⟨some "Acme", some "Contract review", some "bogus", none⟩
    "admin" 7 12 1 praticaAcmeChiusa praticaAcmeNuova praticaChiusaAggiornata
    (by decide) (by decide) (by decide)
  exact ⟨h.2.1 (by decide), h.2.2.2.2.1 (by decide)⟩

/-- C5: updating a record whose closure date is present with resolved status
CHIUSA leaves the closure date unchanged, and two successive such updates
leave the closure date after the second call equal to its value after the
first. -/
theorem closed_update_idempotent (p0 : Practice) (f1 f2 : FormInput)
    (u1 u2 : String) (t1 n1 t2 n2 : Nat) (p1 p2 : Practice)
    (hs1 : resolvedStatoModifica p0.stato f1.stato = "CHIUSA")
    (hs2 : resolvedStatoModifica p1.stato f2.stato = "CHIUSA")
    (h1 : pratica_modifica p0 f1 u1 t1 n1 = some p1)
    (h2 : pratica_modifica p1 f2 u2 t2 n2 = some p2) :
    (p0.data_chiusura ≠ none → p1.data_chiusura = p0.data_chiusura) ∧
    p2.data_chiusura = p1.data_chiusura := by
  have hd1 := modifica_data_chiusura h1
  have hd2 := modifica_data_chiusura h2
  rw [hs1] at hd1
  rw [if_pos rfl] at hd1
  rw [hs2] at hd2
  rw [if_pos rfl] at hd2
  constructor
  · intro hne
    rw [hd1, if_neg hne]
  · have hne : p1.data_chiusura ≠ none := by
      rw [hd1]
      by_cases hd : p0.data_chiusura = none
      · rw [if_pos hd]; exact Option.some_ne_none t1
      · rw [if_neg hd]; exact hd
    rw [hd2, if_neg hne]

/-- Witness for C5: two successive CHIUSA updates of a record closed on day
7 keep the closure date at day 7. -/
theorem closed_update_idempotent_witness :
    praticaChiusa13.data_chiusura = praticaChiusaAggiornata.data_chiusura ∧
    praticaChiusa14.data_chiusura = praticaChiusa13.data_chiusura := by
  have h := closed_update_idempotent praticaChiusaAggiornata
    ⟨some "Acme", some "Contract review", some "CHIUSA", none⟩
    ⟨some "Acme", some "Contract review", some "CHIUSA", none⟩
    "admin" "admin" 8 13 9 14 praticaChiusa13 praticaChiusa14
    (by decide) (by decide) (by decide) (by decide)
  exact ⟨h.1 (by decide), h.2⟩

/-- C6: a successful update whose resolved status is not CHIUSA clears the
closure date whatever its prior value; and along a chain of successful
updates that closes a record, reopens it, and closes it again, the final
closure date is the day of the second closing update. -/
theorem reopen_clears_closed_on (p0 : Practice) (f : FormInput) (u : String)
    (t n : Nat) (q0 : Practice)
    (f1 f2 f3 : FormInput) (u1 u2 u3 : String) (t1 n1 t2 n2 t3 n3 : Nat)
    (q1 q2 q3 : Practice)
    (hns : resolvedStatoModifica p0.stato f.stato ≠ "CHIUSA")
    (h : pratica_modifica p0 f u t n = some q0)
    (hc1 : resolvedStatoModifica p0.stato f1.stato = "CHIUSA")
    (h1 : pratica_modifica p0 f1 u1 t1 n1 = some q1)
    (ha2 : resolvedStatoModifica q1.stato f2.stato ≠ "CHIUSA")
    (h2 : pratica_modifica q1 f2 u2 t2 n2 = some q2)
    (hc3 : resolvedStatoModifica q2.stato f3.stato = "CHIUSA")
    (h3 : pratica_modifica q2 f3 u3 t3 n3 = some q3) :
    q0.data_chiusura = none ∧ q3.data_chiusura = some t3 := by
  constructor
  · rw [modifica_data_chiusura h, if_neg hns]
  · have hd2 := modifica_data_chiusura h2
    rw [if_neg ha2] at hd2
    have hd3 := modifica_data_chiusura h3
    rw [hc3] at hd3
    rw [if_pos rfl] at hd3
    rw [hd2] at hd3
    rw [if_pos rfl] at hd3
    exact hd3

/-- Witness for C6: reopening the record closed on day 7 clears the closure
date, and the close / reopen / close chain ends with closure day 11, the day
of the second closing update. -/
theorem reopen_clears_closed_on_witness :
    praticaAttiva13.data_chiusura = none ∧
    praticaChiusa15.data_chiusura = some 11 := by
  have h := reopen_clears_closed_on praticaChiusaAggiornata
    ⟨some "Acme", some "Contract review", some "ATTIVA", none⟩
    "admin" 8 13 praticaAttiva13
    ⟨some "Acme", some "Contract review", some "CHIUSA", none⟩
    ⟨some "Acme", some "Contract review", some "ATTIVA", none⟩
    ⟨some "Acme", some "Contract review", some "CHIUSA", none⟩
    "admin" "admin" "admin" 8 13 9 14 11 15
    praticaChiusa13 praticaAttiva14 praticaChiusa15
    (by decide) (by decide) (by decide) (by decide) (by decide)
    (by decide) (by decide) (by decide)
  exact h

/-- C7: the listing returns exactly the stored records whose stato equals
the resolved status, ordered by updated_at descending; the query value is
matched after uppercasing (case-insensitively), and an absent or invalid
value resolves to ATTIVA. -/
theorem list_by_status (db : List Practice) (q : Option String) :
    (api_pratiche db q).Perm
      (db.filter (fun p => p.stato = resolvedStatoQuery q)) ∧
    List.Sorted byUpdatedAtDesc (api_pratiche db q) ∧
    (∀ p, p ∈ api_pratiche db q ↔
      p ∈ db ∧ p.stato = resolvedStatoQuery q) ∧
    resolvedStatoQuery none = "ATTIVA" ∧
    (∀ s, statoValido (pyUpper s) = false →
      resolvedStatoQuery (some s) = "ATTIVA") ∧
    (∀ s, statoValido (pyUpper s) = true →
      resolvedStatoQuery (some s) = pyUpper s) := by
  refine ⟨List.perm_insertionSort byUpdatedAtDesc _,
    List.sorted_insertionSort byUpdatedAtDesc _, ?_, by decide, ?_, ?_⟩
  · intro p
    simp [api_pratiche, List.mem_filter]
  · intro s hs
    simp only [resolvedStatoQuery, Option.getD_some]
    rw [hs]
    simp
  · intro s hs
    simp only [resolvedStatoQuery, Option.getD_some]
    rw [if_pos hs]

/-- Witness for C7: an invalid query value resolves to ATTIVA. -/
theorem list_by_status_witness :
    resolvedStatoQuery (some "Bogus") = "ATTIVA" :=
  (list_by_status [] (some "Bogus")).2.2.2.2.1 "Bogus" (by decide)

/-- C8: a successful update leaves id, data_apertura, created_at and
created_by unchanged, and stamps updated_at with the current time and
updated_by with the acting user. -/
theorem update_frame (p : Practice) (form : FormInput) (username : String)
    (today now : Nat) (q : Practice)
    (h : pratica_modifica p form username today now = some q) :
    q.id = p.id ∧ q.data_apertura = p.data_apertura ∧
    q.created_at = p.created_at ∧ q.created_by = p.created_by ∧
    q.updated_at = now ∧ q.updated_by = some username := by
  rw [pratica_modifica_inv h]
  exact ⟨rfl, rfl, rfl, rfl, rfl, rfl⟩

/-- Witness for C8 at a concrete CHIUSA update. -/
theorem update_frame_witness :
    praticaChiusa13.id = praticaChiusaAggiornata.id ∧
    praticaChiusa13.data_apertura = praticaChiusaAggiornata.data_apertura ∧
    praticaChiusa13.created_at = praticaChiusaAggiornata.created_at ∧
    praticaChiusa13.created_by = praticaChiusaAggiornata.created_by ∧
    praticaChiusa13.updated_at = 13 ∧
    praticaChiusa13.updated_by = some "admin" :=
  update_frame praticaChiusaAggiornata
    ⟨some "Acme", some "Contract review", some "CHIUSA", none⟩
    "admin" 8 13 praticaChiusa13 (by decide)

/-- C9: to_dict serializes exactly the nine listed fields, in the source
order; ids are numbers, text fields strings, data_apertura and updated_at
are always ISO strings, data_chiusura is an ISO string or null matching the
record field, and note and updated_by are always strings, empty when the
record field is absent. -/
theorem to_dict_fields (p : Practice) :
    p.to_dict.map Prod.fst =
      ["id", "cliente", "oggetto", "stato", "data_apertura",
       "data_chiusura", "note", "updated_at", "updated_by"] ∧
    p.to_dict.lookup "id" = some (Json.num p.id) ∧
    p.to_dict.lookup "cliente" = some (Json.str p.cliente) ∧
    p.to_dict.lookup "oggetto" = some (Json.str p.oggetto) ∧
    p.to_dict.lookup "stato" = some (Json.str p.stato) ∧
    p.to_dict.lookup "data_apertura" =
      some (Json.str (isoformat p.data_apertura)) ∧
    (p.data_chiusura = none →
      p.to_dict.lookup "data_chiusura" = some Json.null) ∧
    (∀ d, p.data_chiusura = some d →
      p.to_dict.lookup "data_chiusura" = some (Json.str (isoformat d))) ∧
    p.to_dict.lookup "updated_at" =
      some (Json.str (isoformat p.updated_at)) ∧
    (p.note = none → p.to_dict.lookup "note" = some (Json.str "")) ∧
    (∃ s, p.to_dict.lookup "note" = some (Json.str s)) ∧
    (p.updated_by = none →
      p.to_dict.lookup "updated_by" = some (Json.str "")) ∧
    (∃ s, p.to_dict.lookup "updated_by" = some (Json.str s)) := by
  have hdc : p.to_dict.lookup "data_chiusura" =
      some (match p.data_chiusura with
            | some d => Json.str (isoformat d)
            | none => Json.null) := rfl
  have hnote : p.to_dict.lookup "note" = some (Json.str (pyOr p.note "")) :=
    rfl
  have hub : p.to_dict.lookup "updated_by" =
      some (Json.str (pyOr p.updated_by "")) := rfl
  refine ⟨rfl, rfl, rfl, rfl, rfl, rfl, ?_, ?_, rfl, ?_,
    ⟨pyOr p.note "", hnote⟩, ?_, ⟨pyOr p.updated_by "", hub⟩⟩
  · intro h; rw [hdc, h]
  · intro d h; rw [hdc, h]
  · intro h; rw [hnote, h]; rfl
  · intro h; rw [hub, h]; rfl

/-- Witness for C9 at a record with data_chiusura, note and updated_by all
absent. -/
theorem to_dict_fields_witness :
    praticaAcmeChiusa.to_dict.lookup "data_chiusura" = some Json.null ∧
    (Practice.to_dict
        { praticaAcmeChiusa with note := none, updated_by := none }).lookup
      "note" = some (Json.str "") := by
  refine ⟨(to_dict_fields praticaAcmeChiusa).2.2.2.2.2.2.1 (by decide), ?_⟩
  exact (to_dict_fields
    { praticaAcmeChiusa with note := none, updated_by := none
      }).2.2.2.2.2.2.2.2.2.1 (by decide)

/-- Auxiliary counting fact for delete: when the stored ids are distinct and
some stored record has the requested id, filtering that id away removes
exactly one record. -/
theorem filter_ne_id_length :
    ∀ (db : List Practice) (pid : Nat),
    (db.map Practice.id).Nodup → ∀ p0 ∈ db, p0.id = pid →
    (db.filter (fun p => ¬ p.id = pid)).length + 1 = db.length := by
  intro db
  induction db with
  | nil =>
      intro pid _ p0 h
      exact absurd h (List.not_mem_nil p0)
  | cons x rest ih =>
      intro pid hnodup p0 hp0 hid
      rw [List.map_cons, List.nodup_cons] at hnodup
      obtain ⟨hx, hrest⟩ := hnodup
      rcases List.mem_cons.mp hp0 with rfl | hp0
      · have hfx : (p0 :: rest).filter (fun p => ¬ p.id = pid) =
            rest.filter (fun p => ¬ p.id = pid) := by
          rw [List.filter_cons]
          simp [hid]
        have hrest_eq : rest.filter (fun p => ¬ p.id = pid) = rest := by
          apply List.filter_eq_self.mpr
          intro q hq
          simp only [decide_eq_true_eq]
          intro hqid
          exact hx (List.mem_map.mpr ⟨q, hq, by rw [hqid, hid]⟩)
        rw [hfx, hrest_eq]
        simp
      · have hxid : ¬ x.id = pid := by
          intro hc
          exact hx (List.mem_map.mpr ⟨p0, hp0, by rw [hid, hc]⟩)
        rw [List.filter_cons]
        have hcond : (decide (¬ x.id = pid)) = true := by simp [hxid]
        rw [if_pos hcond]
        have hih := ih pid hrest p0 hp0 hid
        simp only [List.length_cons]
        omega

/-- C10: deleting an existing id (on a table with distinct ids) removes
exactly the record carrying that id: the result is the table filtered to the
other records, which therefore all survive unchanged, the record with the
requested id is the deleted one, and the length drops by exactly one. -/
theorem delete_removes_exactly (db : List Practice) (pid : Nat)
    (p0 : Practice) (hmem : p0 ∈ db) (hid : p0.id = pid)
    (hnodup : (db.map Practice.id).Nodup) :
    pratica_elimina db pid = db.filter (fun p => ¬ p.id = pid) ∧
    (∀ q, q ∈ pratica_elimina db pid ↔ q ∈ db ∧ q.id ≠ pid) ∧
    (∀ q, q ∈ db → q.id = pid → q = p0) ∧
    (pratica_elimina db pid).length + 1 = db.length := by
  have hguard : db.any (fun p => p.id = pid) = true := by
    rw [List.any_eq_true]
    exact ⟨p0, hmem, by simp [hid]⟩
  have he : pratica_elimina db pid = db.filter (fun p => ¬ p.id = pid) := by
    simp only [pratica_elimina]
    rw [if_pos hguard]
  refine ⟨he, ?_, ?_, ?_⟩
  · intro q
    rw [he]
    simp [List.mem_filter]
  · intro q hq hqid
    exact List.inj_on_of_nodup_map hnodup hq hmem (by rw [hqid, hid])
  · rw [he]
    exact filter_ne_id_length db pid hnodup p0 hmem hid

/-- Witness for C10 on a two-record table. -/
theorem delete_removes_exactly_witness :
    pratica_elimina [praticaAcmeChiusa, praticaAltra] 1 =
      List.filter (fun p => ¬ p.id = 1) [praticaAcmeChiusa, praticaAltra] :=
  (delete_removes_exactly [praticaAcmeChiusa, praticaAltra] 1
    praticaAcmeChiusa (by decide) (by decide) (by decide)).1

end DatabaseApp
